import Mathlib

/-!
Shallow embedding of the thread-routing and suggestion-approval subsystem of a
Telegram support bot (aiogram based), together with proofs of the specified
properties.

Embedded source files:
  * `app/bot/utils/chatgpt.py`          — `ChatGPTService.has_valid_answer`
  * `app/bot/handlers/group/callback_query.py` — `handle_chatgpt_response`
  * `app/bot/handlers/private/message.py`      — `handle_incoming_message`
The helper module `app/bot/utils/create_forum_topic.py` is imported by the
handlers but its source is not available; its two functions are modelled from
the specification (ThreadProvisioner, §4.2) and are marked as such below.

Transport calls (forward, send, edit, delete, topic creation) are modelled as
events accumulated in program order; fallible transport calls take their
outcome from an explicit environment.  Machine integers of the source (chat
ids, thread ids, message ids) are modelled as `Nat`; Telegram exceptions are an
explicit inductive type carrying the error message string.
-/

namespace QamusBot

/-! ## String primitives

Python string operations used by the source: the substring test `pat in s`
and `s.split(sep, 1)` (split on the first occurrence).  Both are expressed
through one primitive that locates the first occurrence of `sep`. -/

/-- Scan `l` left to right for the first occurrence of the pattern `sep`;
return the part strictly before it and the part strictly after it. -/
def splitOnceAux (sep : List Char) : List Char → Option (List Char × List Char)
  | [] => none
  | c :: cs =>
    if sep.isPrefixOf (c :: cs) then some ([], (c :: cs).drop sep.length)
    else
      match splitOnceAux sep cs with
      | some (pre, post) => some (c :: pre, post)
      | none => none

/-- Python `pat in s` for a non-empty pattern `pat`. -/
def strContains (s pat : String) : Bool :=
  (splitOnceAux pat.data s.data).isSome

/-- Python `s.split(sep, 1)[1]` under the guard `sep in s`: the part of `s`
after the first occurrence of `sep`; `s` itself when `sep` does not occur. -/
def pySplitAfterFirst (s sep : String) : String :=
  match splitOnceAux sep.data s.data with
  | some (_, post) => ⟨post⟩
  | none => s

/-! ## `ChatGPTService.has_valid_answer`  (app/bot/utils/chatgpt.py) -/

/-- Python `s.strip()` with no argument: remove leading and trailing
whitespace characters (modelled over ASCII whitespace, `Char.isWhitespace`). -/
def pyStrip (s : String) : String :=
  ⟨List.reverse (List.dropWhile Char.isWhitespace
    (List.reverse (List.dropWhile Char.isWhitespace s.data)))⟩

/-- Embeds `ChatGPTService.has_valid_answer`:
`return response.strip() != "NO_ANSWER" and len(response.strip()) > 0`. -/
def has_valid_answer (response : String) : Bool :=
  pyStrip response != ("NO_ANSWER") && decide ((pyStrip response).length > 0)

/-! ## Telegram exceptions -/

/-- Exceptions raised by transport calls.  `badRequest` models aiogram's
`TelegramBadRequest`, `apiOther` any other `TelegramAPIError`, and `nonTg`
an exception that is not a `TelegramAPIError` at all. -/
inductive TgExc where
  | badRequest (m : String)
  | apiOther (m : String)
  | nonTg (m : String)
deriving DecidableEq, Repr

/-- Error message carried by the exception (`ex.message` in the source). -/
def TgExc.msgText : TgExc → String
  | .badRequest m => m
  | .apiOther m => m
  | .nonTg m => m

/-- Whether the exception is caught by `except TelegramAPIError`
(`TelegramBadRequest` is a subclass of `TelegramAPIError`). -/
def TgExc.isAPIError : TgExc → Bool
  | .badRequest _ => true
  | .apiOther _ => true
  | .nonTg _ => false

/-- Substring by which `handle_incoming_message` recognises a stale thread:
`"message thread not found" in ex.message`. -/
def thread_not_found_marker : String := "message thread not found"

/-- Exception recognised by the relay as "thread not found": a
`TelegramBadRequest` whose message contains the marker. -/
def TgExc.isThreadNotFound : TgExc → Bool
  | .badRequest m => strContains m thread_not_found_marker
  | _ => false

/-! ## Persisted user record  (app/bot/utils/redis/models.py `UserData`) -/

/-- Fields of the per-user record relevant to the core: user id, display name,
banned flag, nullable discussion-thread id. -/
structure UserData where
  id : Nat
  full_name : String
  is_banned : Bool
  message_thread_id : Option Nat
deriving DecidableEq, Repr

/-- Key-value store keyed by user id (`RedisStorage`), as an association list. -/
def updateUser (redis : List (Nat × UserData)) (uid : Nat) (u : UserData) :
    List (Nat × UserData) :=
  (redis.filter fun p => p.1 != uid) ++ [(uid, u)]

/-- Lookup of a user record in the store. -/
def lookupUser (redis : List (Nat × UserData)) (uid : Nat) : Option UserData :=
  (redis.find? fun p => p.1 == uid).map (·.2)

/-! ## Private-message handler  (app/bot/handlers/private/message.py)

Transport calls are recorded as events in program order.  A `forward` event is
recorded for every copy/forward attempt into a thread, with its outcome. -/

/-- Observable events of one run of `handle_incoming_message`. -/
inductive Ev where
  | forward (threadId : Nat) (ok : Bool)
  | createTopic (threadId : Nat) (label : String)
  | persist (userId : Nat) (record : UserData)
  | sendThinking (threadId : Nat)
  | generate (text : String)
  | editThinking (text : String) (markup : Option (Nat × Nat))
  | sleepDelay (seconds : Nat)
  | deleteThinking
  | replyConfirm
  | deleteReply
deriving DecidableEq, Repr

/-- Mutable state threaded through one run: the in-memory user record, the
key-value store, a fresh-thread-id counter for topic creation, and the event
trace so far. -/
structure HState where
  user : UserData
  redis : List (Nat × UserData)
  nextThreadId : Nat
  events : List Ev
deriving Repr

/-- Environment fixing the outcome of the fallible calls of one run:
`copyFail tid` is the error (if any) raised by forwarding/copying content into
thread `tid`, and `generateResult` is the outcome of
`chatgpt_service.generate_response` (error message or response text). -/
structure Env where
  copyFail : Nat → Option TgExc
  generateResult : Except String String

/-- Modelled from the spec: `create_forum_topic` of
`app/bot/utils/create_forum_topic.py`, whose source is not under src/.  Per
ThreadProvisioner (§4.2) it unconditionally creates a new discussion thread in
the fixed workspace, labelled with the user's display name, and returns the
thread id assigned by the transport; fresh ids are drawn from a counter. -/
def create_forum_topic (st : HState) : Nat × HState :=
  (st.nextThreadId,
    { st with
      nextThreadId := st.nextThreadId + 1
      events := st.events ++ [.createTopic st.nextThreadId st.user.full_name] })

/-- Modelled from the spec: `get_or_create_forum_topic` of
`app/bot/utils/create_forum_topic.py`, whose source is not under src/.  Per
ThreadProvisioner's `ensureThread` (§4.2): if the stored thread id is non-null
it is returned optimistically with no existence probe; if null, a new thread is
created, persisted via the directory, and returned. -/
def get_or_create_forum_topic (st : HState) : Nat × HState :=
  match st.user.message_thread_id with
  | some tid => (tid, st)
  | none =>
    let (tid, st1) := create_forum_topic st
    let u := { st1.user with message_thread_id := some tid }
    (tid,
      { st1 with
        user := u
        redis := updateUser st1.redis u.id u
        events := st1.events ++ [.persist u.id u] })

/-- Embeds the inner function `copy_message_to_topic` of
`handle_incoming_message`: resolve the thread via
`get_or_create_forum_topic`, then forward the message (or copy the album) into
it; a transport failure of the copy is returned as an error, the attempt being
recorded either way. -/
def copy_message_to_topic (env : Env) (st : HState) : Except TgExc Nat × HState :=
  let (tid, st1) := get_or_create_forum_topic st
  match env.copyFail tid with
  | some ex => (.error ex, { st1 with events := st1.events ++ [.forward tid false] })
  | none => (.ok tid, { st1 with events := st1.events ++ [.forward tid true] })

/-- Text of the placeholder notice (`"🤔 <i>ChatGPT генерирует ответ...</i>"`). -/
def thinking_text : String := "🤔 <i>ChatGPT генерирует ответ...</i>"

/-- Header of a rendered suggestion, before the double-newline separator. -/
def suggestion_header : String := "💡 <b>Предложенный ответ от ChatGPT:</b>"

/-- Notice shown when the responder signals no knowledge-base match. -/
def no_answer_notice : String :=
  "ℹ️ <i>ChatGPT не нашел ответ в базе знаний. Пожалуйста, ответьте самостоятельно.</i>"

/-- Notice shown when the responder raised an error. -/
def generation_error_notice : String :=
  "❌ <i>Ошибка при генерации ответа ChatGPT. Пожалуйста, ответьте самостоятельно.</i>"

/-- Embeds the `if message.text:` block of `handle_incoming_message`: the
events it appends after a successful relay into thread `tid`.  The placeholder
is posted, the responder invoked, and depending on its outcome the placeholder
is edited into a pending suggestion with the approval keyboard, or into an
auto-retracted notice (no answer, or responder error — the catch-all
`except Exception` swallows the failure). -/
def suggestion_events (env : Env) (userId msgId tid : Nat) :
    Option String → List Ev
  | none => []
  | some text =>
    .sendThinking tid :: .generate text ::
    (match env.generateResult with
     | .ok resp =>
       if has_valid_answer resp then
         [.editThinking (suggestion_header ++ ("\n\n") ++ resp) (some (userId, msgId))]
       else
         [.editThinking no_answer_notice none, .sleepDelay 5, .deleteThinking]
     | .error _ =>
       [.editThinking generation_error_notice none, .sleepDelay 5, .deleteThinking])

/-- Embeds the closing lines of `handle_incoming_message`: the confirmation
reply to the user, auto-retracted after five seconds. -/
def confirm_events : List Ev := [.replyConfirm, .sleepDelay 5, .deleteReply]

/-- Embeds `handle_incoming_message` (app/bot/handlers/private/message.py).
Banned users are ignored.  The content is relayed by `copy_message_to_topic`;
on a `TelegramBadRequest` whose message contains `"message thread not found"`
a new topic is created, stored on the user record, persisted, and the copy is
retried exactly once; any other failure, or a failure of the retry, is
returned as an error (it propagates uncaught in the source).  After a
successful relay the suggestion workflow and the confirmation reply run. -/
def handle_incoming_message (env : Env) (msgText : Option String) (msgId : Nat)
    (st : HState) : Except TgExc Unit × HState :=
  if st.user.is_banned then (.ok (), st)
  else
    match copy_message_to_topic env st with
    | (.ok tid, st1) =>
      (.ok (),
        { st1 with
          events := st1.events ++ suggestion_events env st1.user.id msgId tid msgText
            ++ confirm_events })
    | (.error ex, st1) =>
      match ex with
      | .badRequest m =>
        if strContains m thread_not_found_marker then
          let (newTid, st2) := create_forum_topic st1
          let u := { st2.user with message_thread_id := some newTid }
          let st3 :=
            { st2 with
              user := u
              redis := updateUser st2.redis u.id u
              events := st2.events ++ [.persist u.id u] }
          match copy_message_to_topic env st3 with
          | (.ok tid, st4) =>
            (.ok (),
              { st4 with
                events := st4.events
                  ++ suggestion_events env st4.user.id msgId tid msgText
                  ++ confirm_events })
          | (.error ex2, st4) => (.error ex2, st4)
        else (.error ex, st1)
      | _ => (.error ex, st1)

/-- Run of `handle_incoming_message` from an empty event trace. -/
def runHandler (env : Env) (msgText : Option String) (msgId : Nat)
    (user : UserData) (redis : List (Nat × UserData)) (ntid : Nat) :
    Except TgExc Unit × HState :=
  handle_incoming_message env msgText msgId ⟨user, redis, ntid, []⟩

/-! ### Trace observations -/

/-- Whether an event is a copy/forward attempt. -/
def Ev.isForward : Ev → Bool
  | .forward _ _ => true
  | _ => false

/-- Whether an event is a topic creation. -/
def Ev.isCreate : Ev → Bool
  | .createTopic _ _ => true
  | _ => false

/-- Whether an event is a persist of the user record. -/
def Ev.isPersist : Ev → Bool
  | .persist _ _ => true
  | _ => false

/-- Number of copy/forward attempts in a trace. -/
def forwardCount (evs : List Ev) : Nat := (evs.filter Ev.isForward).length

/-- Number of topic creations in a trace. -/
def createCount (evs : List Ev) : Nat := (evs.filter Ev.isCreate).length

/-- Number of persists of the user record in a trace. -/
def persistCount (evs : List Ev) : Nat := (evs.filter Ev.isPersist).length

/-- Threads into which content was actually delivered (successful forwards),
in order. -/
def deliveredTo (evs : List Ev) : List Nat :=
  evs.filterMap fun e =>
    match e with
    | .forward tid true => some tid
    | _ => none

/-! ## Approval callback handler  (app/bot/handlers/group/callback_query.py) -/

/-- Embeds `ChatGPTResponseCallback` (app/bot/types/callback_data.py): the
action token carried by the approval buttons. -/
structure ChatGPTResponseCallback where
  action : String
  user_id : Nat
  message_id : Nat
deriving DecidableEq, Repr

/-- Observable events of one run of `handle_chatgpt_response`.  A `send` event
records the chat id, the text, the (absent) thread id and the outcome of the
attempt; an `edit` event records the new text and the reply markup. -/
inductive CbEv where
  | send (chatId : Nat) (text : String) (threadId : Option Nat) (ok : Bool)
  | edit (text : String) (markup : Option (Nat × Nat))
  | answer (text : String) (showAlert : Bool)
  | deleteMsg
deriving DecidableEq, Repr

/-- Environment of one callback run: the outcome of `bot.send_message` to the
target user (`none` = delivered). -/
structure CbEnv where
  sendFail : Option TgExc

/-- Marker prefixed to the suggestion text after a successful send. -/
def sent_marker : String := "✅ Ответ отправлен пользователю"

/-- Acknowledgement toast after a successful send. -/
def sent_ack : String := "Ответ отправлен пользователю"

/-- Marker prefixed to the suggestion text when the recipient blocked the bot. -/
def blocked_marker : String := "❌ Пользователь заблокировал бота"

/-- Blocking alert shown when the recipient blocked the bot. -/
def blocked_ack : String := "Пользователь заблокировал бота"

/-- Acknowledgement toast after a reject. -/
def reject_ack : String := "Предложенный ответ отклонен. Напишите свой ответ."

/-- Embeds the extraction of the suggestion text in `handle_chatgpt_response`:
`call.message.text.split("\n\n", 1)[1] if "\n\n" in call.message.text else
call.message.text`. -/
def extract_response (text : String) : String :=
  if strContains text ("\n\n") then pySplitAfterFirst text ("\n\n") else text

/-- Embeds `handle_chatgpt_response` (app/bot/handlers/group/callback_query.py).
On `approve`: extract the suggestion text, send it to the user id of the action
token; on success edit the rendered message to the sent marker plus the text
(markup removed) and toast; on a `TelegramAPIError` whose message contains
`"blocked"`, alert, and edit to the blocked marker plus the text; on any other
`TelegramAPIError`, alert with the error and leave the message untouched; a
non-`TelegramAPIError` propagates.  On `reject`: delete the rendered message
and toast. -/
def handle_chatgpt_response (env : CbEnv) (cb : ChatGPTResponseCallback)
    (messageText : String) : Except TgExc Unit × List CbEv :=
  if cb.action == ("approve") then
    let chatgpt_response := extract_response messageText
    match env.sendFail with
    | none =>
      (.ok (),
        [.send cb.user_id chatgpt_response none true,
         .edit (sent_marker ++ ("\n\n") ++ chatgpt_response) none,
         .answer sent_ack false])
    | some ex =>
      if ex.isAPIError then
        if strContains ex.msgText ("blocked") then
          (.ok (),
            [.send cb.user_id chatgpt_response none false,
             .answer blocked_ack true,
             .edit (blocked_marker ++ ("\n\n") ++ chatgpt_response) none])
        else
          (.ok (),
            [.send cb.user_id chatgpt_response none false,
             .answer (("Ошибка: ") ++ ex.msgText) true])
      else (.error ex, [.send cb.user_id chatgpt_response none false])
  else if cb.action == ("reject") then
    (.ok (), [.deleteMsg, .answer reject_ack false])
  else (.ok (), [])

/-- Send events of a callback trace. -/
def cbSends (evs : List CbEv) : List CbEv :=
  evs.filter fun e =>
    match e with
    | .send _ _ _ _ => true
    | _ => false

/-- Edit and delete events of a callback trace (events that change the
rendered suggestion message). -/
def cbMutations (evs : List CbEv) : List CbEv :=
  evs.filter fun e =>
    match e with
    | .edit _ _ => true
    | .deleteMsg => true
    | _ => false

/-! ## Theorems -/

/-- C3: `has_valid_answer` is a pure function of its string argument: it
returns true iff the argument, after trimming surrounding whitespace, is
non-empty and not exactly equal (case-sensitively) to the sentinel
`"NO_ANSWER"`; in particular it is false on `""`, `"NO_ANSWER"` and
`"  NO_ANSWER  "`, and true on `"Yes, here is the answer."`. -/
theorem C3_has_valid_answer_correct :
    (∀ s : String,
      has_valid_answer s = true ↔ (pyStrip s ≠ ("") ∧ pyStrip s ≠ ("NO_ANSWER")))
    ∧ has_valid_answer ("") = false
    ∧ has_valid_answer ("NO_ANSWER") = false
    ∧ has_valid_answer ("  NO_ANSWER  ") = false
    ∧ has_valid_answer ("Yes, here is the answer.") = true := by
  refine ⟨fun s => ?_, by decide, by decide, by decide, by decide⟩
  rw [has_valid_answer, Bool.and_eq_true, bne_iff_ne, decide_eq_true_eq]
  constructor
  · rintro ⟨hne, hlen⟩
    refine ⟨fun hempty => ?_, hne⟩
    rw [hempty] at hlen
    simp at hlen
  · rintro ⟨hempty, hne⟩
    refine ⟨hne, ?_⟩
    show 0 < (pyStrip s).data.length
    rw [List.length_pos]
    intro hd
    exact hempty (String.ext (by simpa using hd))

/-! ### Extraction of the suggestion text (C4) -/

/-- Unfolding lemma for `splitOnceAux` on a cons cell. -/
lemma splitOnceAux_cons (sep : List Char) (c : Char) (cs : List Char) :
    splitOnceAux sep (c :: cs) =
      if sep.isPrefixOf (c :: cs) then some ([], (c :: cs).drop sep.length)
      else
        match splitOnceAux sep cs with
        | some (pre, post) => some (c :: pre, post)
        | none => none := rfl

/-- Whether `"\n\n"` is a prefix of `c :: (cs ++ tail)` depends only on the
first two characters, which agree between tail `'\n' :: '\n' :: post` and
tail `['\n']`. -/
lemma isPrefixOf_nl2_congr (c : Char) (cs post : List Char) :
    (['\n', '\n'] : List Char).isPrefixOf (c :: (cs ++ '\n' :: '\n' :: post)) =
      (['\n', '\n'] : List Char).isPrefixOf (c :: (cs ++ ['\n'])) := by
  cases cs with
  | nil => simp [List.isPrefixOf]
  | cons d ds => simp [List.isPrefixOf]

/-- If `"\n\n"` does not occur in `pre ++ "\n"`, then the first occurrence of
`"\n\n"` in `pre ++ "\n\n" ++ post` is exactly at the end of `pre`. -/
lemma splitOnceAux_nl2_append (pre post : List Char)
    (h : splitOnceAux ['\n', '\n'] (pre ++ ['\n']) = none) :
    splitOnceAux ['\n', '\n'] (pre ++ '\n' :: '\n' :: post) = some (pre, post) := by
  induction pre with
  | nil => simp [splitOnceAux, List.isPrefixOf]
  | cons c cs ih =>
    rw [List.cons_append, splitOnceAux_cons] at h
    rw [List.cons_append, splitOnceAux_cons, isPrefixOf_nl2_congr]
    split at h
    · exact absurd h (by simp)
    · rw [if_neg (by assumption)]
      split at h
      · exact absurd h (by simp)
      · rename_i hrec
        rw [ih hrec]

/-- C4: the approve handler's extraction splits on the first double-newline
and discards the header: if the text contains a double-newline, extraction
yields exactly the portion after the first double-newline (here: any
decomposition `pre ++ "\n\n" ++ post` in which no double-newline occurs
earlier, i.e. not within `pre ++ "\n"`); if it contains no double-newline,
extraction yields the original text unchanged. -/
theorem C4_extract_response_correct :
    (∀ pre post : String, strContains (pre ++ ("\n")) ("\n\n") = false →
      extract_response (pre ++ ("\n\n") ++ post) = post)
    ∧ (∀ t : String, strContains t ("\n\n") = false → extract_response t = t) := by
  constructor
  · intro pre post h
    have hdata : (pre ++ ("\n\n") ++ post).data = pre.data ++ '\n' :: '\n' :: post.data := by
      simp [String.data_append]
    have hdata1 : (pre ++ ("\n")).data = pre.data ++ ['\n'] := by
      simp [String.data_append]
    have hnone : splitOnceAux ['\n', '\n'] (pre.data ++ ['\n']) = none := by
      rw [strContains, hdata1] at h
      cases hcase : splitOnceAux ['\n', '\n'] (pre.data ++ ['\n']) with
      | none => rfl
      | some v =>
        rw [show (("\n\n" : String)).data = ['\n', '\n'] from rfl, hcase] at h
        simp at h
    have hsplit := splitOnceAux_nl2_append pre.data post.data hnone
    rw [extract_response, strContains, pySplitAfterFirst, hdata,
      show (("\n\n" : String)).data = ['\n', '\n'] from rfl, hsplit]
    simp
  · intro t h
    rw [extract_response, h]
    simp

/-- Witness for C4 at the spec's concrete round-trip input. -/
theorem C4_witness :
    extract_response (("💡 Header") ++ ("\n\n") ++ ("The actual answer body")) =
      ("The actual answer body") :=
  C4_extract_response_correct.1 ("💡 Header") ("The actual answer body") (by decide)

/-- C5: an approve action whose send succeeds sends exactly the extracted
suggestion text to the user id of the action token (no thread id), edits the
rendered message to the sent marker followed by that text with the markup
removed, and issues a transient (non-blocking) acknowledgement. -/
theorem C5_approve_sent (env : CbEnv) (cb : ChatGPTResponseCallback)
    (messageText : String)
    (ha : cb.action = ("approve")) (hok : env.sendFail = none) :
    handle_chatgpt_response env cb messageText =
      (Except.ok (),
        [CbEv.send cb.user_id (extract_response messageText) none true,
         CbEv.edit (sent_marker ++ ("\n\n") ++ extract_response messageText) none,
         CbEv.answer sent_ack false]) := by
  simp [handle_chatgpt_response, ha, hok]

/-- Witness for C5 at a concrete rendered suggestion. -/
theorem C5_witness :
    handle_chatgpt_response ⟨none⟩ ⟨("approve"), 42, 10⟩ (("💡 Header") ++ ("\n\n") ++ ("Body")) =
      (Except.ok (),
        [CbEv.send 42 (extract_response (("💡 Header") ++ ("\n\n") ++ ("Body"))) none true,
         CbEv.edit (sent_marker ++ ("\n\n")
           ++ extract_response (("💡 Header") ++ ("\n\n") ++ ("Body"))) none,
         CbEv.answer sent_ack false]) :=
  C5_approve_sent ⟨none⟩ ⟨("approve"), 42, 10⟩ (("💡 Header") ++ ("\n\n") ++ ("Body")) rfl rfl

/-- C6: an approve action whose send fails with a `TelegramAPIError` whose
message contains `"blocked"` never raises past the handler: staff is alerted
with a blocking acknowledgement, the rendered message is edited to the blocked
marker plus the extracted text with the markup removed, and the send is not
retried (exactly one send attempt occurs). -/
theorem C6_approve_blocked (env : CbEnv) (cb : ChatGPTResponseCallback)
    (messageText : String) (ex : TgExc)
    (ha : cb.action = ("approve")) (hf : env.sendFail = some ex)
    (hapi : ex.isAPIError = true)
    (hb : strContains ex.msgText ("blocked") = true) :
    handle_chatgpt_response env cb messageText =
      (Except.ok (),
        [CbEv.send cb.user_id (extract_response messageText) none false,
         CbEv.answer blocked_ack true,
         CbEv.edit (blocked_marker ++ ("\n\n") ++ extract_response messageText) none])
    ∧ cbSends (handle_chatgpt_response env cb messageText).2 =
        [CbEv.send cb.user_id (extract_response messageText) none false] := by
  constructor
  · simp [handle_chatgpt_response, ha, hf, hapi, hb]
  · simp [handle_chatgpt_response, ha, hf, hapi, hb, cbSends]

/-- Witness for C6 at a concrete blocked-sender failure. -/
theorem C6_witness :
    handle_chatgpt_response ⟨some (TgExc.apiOther ("Forbidden: bot was blocked by the user"))⟩
        ⟨("approve"), 42, 10⟩ (("H") ++ ("\n\n") ++ ("B")) =
      (Except.ok (),
        [CbEv.send 42 (extract_response (("H") ++ ("\n\n") ++ ("B"))) none false,
         CbEv.answer blocked_ack true,
         CbEv.edit (blocked_marker ++ ("\n\n")
           ++ extract_response (("H") ++ ("\n\n") ++ ("B"))) none]) :=
  (C6_approve_blocked ⟨some (TgExc.apiOther ("Forbidden: bot was blocked by the user"))⟩
    ⟨("approve"), 42, 10⟩ (("H") ++ ("\n\n") ++ ("B"))
    (TgExc.apiOther ("Forbidden: bot was blocked by the user"))
    rfl rfl rfl (by decide)).1

/-- C7: a reject action deletes the rendered suggestion message outright,
issues a transient acknowledgement, and sends no content of any kind to the
user (no send event occurs). -/
theorem C7_reject (env : CbEnv) (cb : ChatGPTResponseCallback)
    (messageText : String) (hr : cb.action = ("reject")) :
    handle_chatgpt_response env cb messageText =
      (Except.ok (), [CbEv.deleteMsg, CbEv.answer reject_ack false])
    ∧ cbSends (handle_chatgpt_response env cb messageText).2 = [] := by
  constructor
  · simp [handle_chatgpt_response, hr]
  · simp [handle_chatgpt_response, hr, cbSends]

/-- Witness for C7 at a concrete reject action. -/
theorem C7_witness :
    handle_chatgpt_response ⟨none⟩ ⟨("reject"), 42, 10⟩ (("H") ++ ("\n\n") ++ ("B")) =
      (Except.ok (), [CbEv.deleteMsg, CbEv.answer reject_ack false]) :=
  (C7_reject ⟨none⟩ ⟨("reject"), 42, 10⟩ (("H") ++ ("\n\n") ++ ("B")) rfl).1

/-- C10: an approve action whose send fails with a `TelegramAPIError` whose
message contains neither `"blocked"` nor `"message thread not found"` is
caught rather than propagated: staff gets a blocking alert carrying the error
message, and no edit or delete of the rendered message occurs (text and
approval buttons are left intact, so the action can be replayed). -/
theorem C10_approve_other_error (env : CbEnv) (cb : ChatGPTResponseCallback)
    (messageText : String) (ex : TgExc)
    (ha : cb.action = ("approve")) (hf : env.sendFail = some ex)
    (hapi : ex.isAPIError = true)
    (hnb : strContains ex.msgText ("blocked") = false)
    (_hnt : strContains ex.msgText thread_not_found_marker = false) :
    handle_chatgpt_response env cb messageText =
      (Except.ok (),
        [CbEv.send cb.user_id (extract_response messageText) none false,
         CbEv.answer (("Ошибка: ") ++ ex.msgText) true])
    ∧ cbMutations (handle_chatgpt_response env cb messageText).2 = [] := by
  constructor
  · simp [handle_chatgpt_response, ha, hf, hapi, hnb]
  · simp [handle_chatgpt_response, ha, hf, hapi, hnb, cbMutations]

/-- Witness for C10 at a concrete non-blocked transport failure. -/
theorem C10_witness :
    handle_chatgpt_response ⟨some (TgExc.badRequest ("Bad Request: chat not found"))⟩
        ⟨("approve"), 42, 10⟩ (("H") ++ ("\n\n") ++ ("B")) =
      (Except.ok (),
        [CbEv.send 42 (extract_response (("H") ++ ("\n\n") ++ ("B"))) none false,
         CbEv.answer (("Ошибка: ") ++ (TgExc.badRequest ("Bad Request: chat not found")).msgText)
           true]) :=
  (C10_approve_other_error ⟨some (TgExc.badRequest ("Bad Request: chat not found"))⟩
    ⟨("approve"), 42, 10⟩ (("H") ++ ("\n\n") ++ ("B"))
    (TgExc.badRequest ("Bad Request: chat not found"))
    rfl rfl rfl (by decide) (by decide)).1

/-! ### Trace facts about the suggestion-workflow and confirmation phases -/

/-- The suggestion-workflow phase performs no copy/forward attempt. -/
lemma suggestion_events_filter_isForward (env : Env) (uid mid tid : Nat)
    (mt : Option String) :
    (suggestion_events env uid mid tid mt).filter Ev.isForward = [] := by
  cases mt with
  | none => rfl
  | some text =>
    simp only [suggestion_events]
    cases env.generateResult with
    | ok resp => by_cases h : has_valid_answer resp <;> simp [h, Ev.isForward]
    | error e => simp [Ev.isForward]

/-- The suggestion-workflow phase creates no topic. -/
lemma suggestion_events_filter_isCreate (env : Env) (uid mid tid : Nat)
    (mt : Option String) :
    (suggestion_events env uid mid tid mt).filter Ev.isCreate = [] := by
  cases mt with
  | none => rfl
  | some text =>
    simp only [suggestion_events]
    cases env.generateResult with
    | ok resp => by_cases h : has_valid_answer resp <;> simp [h, Ev.isCreate]
    | error e => simp [Ev.isCreate]

/-- The suggestion-workflow phase persists no user record. -/
lemma suggestion_events_filter_isPersist (env : Env) (uid mid tid : Nat)
    (mt : Option String) :
    (suggestion_events env uid mid tid mt).filter Ev.isPersist = [] := by
  cases mt with
  | none => rfl
  | some text =>
    simp only [suggestion_events]
    cases env.generateResult with
    | ok resp => by_cases h : has_valid_answer resp <;> simp [h, Ev.isPersist]
    | error e => simp [Ev.isPersist]

/-- The suggestion-workflow phase delivers no content into any thread. -/
lemma suggestion_events_deliveredTo (env : Env) (uid mid tid : Nat)
    (mt : Option String) :
    deliveredTo (suggestion_events env uid mid tid mt) = [] := by
  cases mt with
  | none => rfl
  | some text =>
    simp only [suggestion_events, deliveredTo]
    cases env.generateResult with
    | ok resp => by_cases h : has_valid_answer resp <;> simp [h]
    | error e => simp

/-- Successful deliveries distribute over trace concatenation. -/
lemma deliveredTo_append (a b : List Ev) :
    deliveredTo (a ++ b) = deliveredTo a ++ deliveredTo b := by
  simp [deliveredTo, List.filterMap_append]

/-- The confirmation phase performs no copy/forward attempt. -/
lemma confirm_events_filter_isForward : confirm_events.filter Ev.isForward = [] := rfl

/-- The confirmation phase creates no topic. -/
lemma confirm_events_filter_isCreate : confirm_events.filter Ev.isCreate = [] := rfl

/-- The confirmation phase persists no user record. -/
lemma confirm_events_filter_isPersist : confirm_events.filter Ev.isPersist = [] := rfl

/-- The confirmation phase delivers no content into any thread. -/
lemma confirm_events_deliveredTo : deliveredTo confirm_events = [] := rfl

/-! ### Run equations of `handle_incoming_message` per scenario -/

/-- Run equation: the stored thread id is live (the copy into it succeeds). -/
lemma run_live_ok (env : Env) (user : UserData) (redis : List (Nat × UserData))
    (ntid msgId : Nat) (msgText : Option String) (t : Nat)
    (hban : user.is_banned = false) (hth : user.message_thread_id = some t)
    (hok : env.copyFail t = none) :
    runHandler env msgText msgId user redis ntid =
      (Except.ok (), ⟨user, redis, ntid,
        [Ev.forward t true]
          ++ suggestion_events env user.id msgId t msgText ++ confirm_events⟩) := by
  simp [runHandler, handle_incoming_message, copy_message_to_topic,
    get_or_create_forum_topic, hban, hth, hok]

/-- Run equation: the stored thread id is stale (the copy fails with
"message thread not found"), and the retried copy into the recreated thread
succeeds. -/
lemma run_stale_retry_ok (env : Env) (user : UserData)
    (redis : List (Nat × UserData)) (ntid msgId : Nat) (msgText : Option String)
    (t : Nat) (m : String)
    (hban : user.is_banned = false) (hth : user.message_thread_id = some t)
    (hm : env.copyFail t = some (TgExc.badRequest m))
    (hnf : strContains m thread_not_found_marker = true)
    (hc : env.copyFail ntid = none) :
    runHandler env msgText msgId user redis ntid =
      (Except.ok (),
        ⟨{ user with message_thread_id := some ntid },
         updateUser redis user.id { user with message_thread_id := some ntid },
         ntid + 1,
         [Ev.forward t false, Ev.createTopic ntid user.full_name,
          Ev.persist user.id { user with message_thread_id := some ntid },
          Ev.forward ntid true]
           ++ suggestion_events env user.id msgId ntid msgText ++ confirm_events⟩) := by
  simp [runHandler, handle_incoming_message, copy_message_to_topic,
    get_or_create_forum_topic, create_forum_topic, hban, hth, hm, hnf, hc]

/-- Run equation: the stored thread id is stale and the retried copy also
fails — the second error is returned (propagates uncaught). -/
lemma run_stale_retry_fail (env : Env) (user : UserData)
    (redis : List (Nat × UserData)) (ntid msgId : Nat) (msgText : Option String)
    (t : Nat) (m : String) (ex2 : TgExc)
    (hban : user.is_banned = false) (hth : user.message_thread_id = some t)
    (hm : env.copyFail t = some (TgExc.badRequest m))
    (hnf : strContains m thread_not_found_marker = true)
    (hc : env.copyFail ntid = some ex2) :
    runHandler env msgText msgId user redis ntid =
      (Except.error ex2,
        ⟨{ user with message_thread_id := some ntid },
         updateUser redis user.id { user with message_thread_id := some ntid },
         ntid + 1,
         [Ev.forward t false, Ev.createTopic ntid user.full_name,
          Ev.persist user.id { user with message_thread_id := some ntid },
          Ev.forward ntid false]⟩) := by
  simp [runHandler, handle_incoming_message, copy_message_to_topic,
    get_or_create_forum_topic, create_forum_topic, hban, hth, hm, hnf, hc]

/-- Run equation: the first copy fails with an error that is not a
"thread not found" bad request — it is returned unchanged
(propagates uncaught), with no recovery attempted. -/
lemma run_first_fail_other (env : Env) (user : UserData)
    (redis : List (Nat × UserData)) (ntid msgId : Nat) (msgText : Option String)
    (t : Nat) (ex : TgExc)
    (hban : user.is_banned = false) (hth : user.message_thread_id = some t)
    (hex : env.copyFail t = some ex) (hnotnf : ex.isThreadNotFound = false) :
    runHandler env msgText msgId user redis ntid =
      (Except.error ex, ⟨user, redis, ntid, [Ev.forward t false]⟩) := by
  cases ex with
  | badRequest m =>
    rw [TgExc.isThreadNotFound] at hnotnf
    simp [runHandler, handle_incoming_message, copy_message_to_topic,
      get_or_create_forum_topic, hban, hth, hex, hnotnf]
  | apiOther m =>
    simp [runHandler, handle_incoming_message, copy_message_to_topic,
      get_or_create_forum_topic, hban, hth, hex]
  | nonTg m =>
    simp [runHandler, handle_incoming_message, copy_message_to_topic,
      get_or_create_forum_topic, hban, hth, hex]

/-- Updating the store and looking the same key up returns the new record. -/
lemma lookupUser_updateUser (redis : List (Nat × UserData)) (uid : Nat)
    (u : UserData) :
    lookupUser (updateUser redis uid u) uid = some u := by
  simp [lookupUser, updateUser, List.find?_append]

/-- C1: for a relay whose stored thread is stale (first copy fails with a
`TelegramBadRequest` containing "message thread not found"), the handler
creates one new thread, persists once, and attempts the copy exactly twice
(the original and one retry); the retry's outcome decides the result — success
returns normally, a retry failure is returned as that error.  A first failure
of any other kind is returned unchanged with a single copy attempt and no
thread creation. -/
theorem C1_retry_exactly_once (env : Env) (user : UserData)
    (redis : List (Nat × UserData)) (ntid msgId : Nat) (msgText : Option String)
    (t : Nat)
    (hban : user.is_banned = false) (hth : user.message_thread_id = some t) :
    (∀ m, env.copyFail t = some (TgExc.badRequest m) →
      strContains m thread_not_found_marker = true →
      createCount (runHandler env msgText msgId user redis ntid).2.events = 1
      ∧ persistCount (runHandler env msgText msgId user redis ntid).2.events = 1
      ∧ forwardCount (runHandler env msgText msgId user redis ntid).2.events = 2
      ∧ (env.copyFail ntid = none →
          (runHandler env msgText msgId user redis ntid).1 = Except.ok ())
      ∧ (∀ ex2, env.copyFail ntid = some ex2 →
          (runHandler env msgText msgId user redis ntid).1 = Except.error ex2))
    ∧ (∀ ex, env.copyFail t = some ex → ex.isThreadNotFound = false →
        (runHandler env msgText msgId user redis ntid).1 = Except.error ex
        ∧ forwardCount (runHandler env msgText msgId user redis ntid).2.events = 1
        ∧ createCount (runHandler env msgText msgId user redis ntid).2.events = 0) := by
  constructor
  · intro m hm hnf
    cases hc : env.copyFail ntid with
    | none =>
      rw [run_stale_retry_ok env user redis ntid msgId msgText t m hban hth hm hnf hc]
      refine ⟨?_, ?_, ?_, fun _ => rfl, fun ex2 hc2 => absurd hc2 (by simp)⟩
      · simp [createCount, List.filter_append, suggestion_events_filter_isCreate,
          confirm_events_filter_isCreate, Ev.isCreate]
      · simp [persistCount, List.filter_append, suggestion_events_filter_isPersist,
          confirm_events_filter_isPersist, Ev.isPersist]
      · simp [forwardCount, List.filter_append, suggestion_events_filter_isForward,
          confirm_events_filter_isForward, Ev.isForward]
    | some ex2 =>
      rw [run_stale_retry_fail env user redis ntid msgId msgText t m ex2 hban hth hm hnf hc]
      refine ⟨?_, ?_, ?_, fun hc2 => absurd hc2 (by simp), fun ex3 hc3 => ?_⟩
      · simp [createCount, Ev.isCreate]
      · simp [persistCount, Ev.isPersist]
      · simp [forwardCount, Ev.isForward]
      · injection hc3 with h
        subst h
        rfl
  · intro ex hex hnotnf
    rw [run_first_fail_other env user redis ntid msgId msgText t ex hban hth hex hnotnf]
    refine ⟨rfl, ?_, ?_⟩
    · simp [forwardCount, Ev.isForward]
    · simp [createCount, Ev.isCreate]

/-- Environment of the concrete stale-thread scenario: copying into thread 5
fails with "message thread not found", copying anywhere else succeeds. -/
def staleEnv : Env :=
  { copyFail := fun tid =>
      if tid == 5 then some (TgExc.badRequest ("Bad Request: message thread not found"))
      else none
    generateResult := Except.ok ("hello") }

/-- Concrete user record holding the stale thread id 5. -/
def aliceUser : UserData := ⟨1, ("Alice"), false, some 5⟩

/-- Witness for C1 in the concrete stale-thread scenario. -/
theorem C1_witness :
    createCount (runHandler staleEnv (some ("hi")) 10 aliceUser [] 7).2.events = 1
    ∧ forwardCount (runHandler staleEnv (some ("hi")) 10 aliceUser [] 7).2.events = 2
    ∧ (runHandler staleEnv (some ("hi")) 10 aliceUser [] 7).1 = Except.ok () := by
  have h := (C1_retry_exactly_once staleEnv aliceUser [] 7 10 (some ("hi")) 5
    rfl rfl).1 ("Bad Request: message thread not found") rfl (by decide)
  exact ⟨h.1, h.2.2.1, h.2.2.2.1 rfl⟩

/-- C2: in a relay that recovers from a stale thread, the newly created thread
id is stored on the user record and persisted strictly before the retry is
attempted; on success the content is delivered into exactly one thread — the
recreated one — and that thread id is the one now persisted for the user. -/
theorem C2_self_healing (env : Env) (user : UserData)
    (redis : List (Nat × UserData)) (ntid msgId : Nat) (msgText : Option String)
    (t : Nat) (m : String)
    (hban : user.is_banned = false) (hth : user.message_thread_id = some t)
    (hm : env.copyFail t = some (TgExc.badRequest m))
    (hnf : strContains m thread_not_found_marker = true)
    (hc : env.copyFail ntid = none) :
    (runHandler env msgText msgId user redis ntid).1 = Except.ok ()
    ∧ (runHandler env msgText msgId user redis ntid).2.events =
        [Ev.forward t false, Ev.createTopic ntid user.full_name,
         Ev.persist user.id { user with message_thread_id := some ntid },
         Ev.forward ntid true]
          ++ suggestion_events env user.id msgId ntid msgText ++ confirm_events
    ∧ deliveredTo (runHandler env msgText msgId user redis ntid).2.events = [ntid]
    ∧ lookupUser (runHandler env msgText msgId user redis ntid).2.redis user.id =
        some { user with message_thread_id := some ntid } := by
  rw [run_stale_retry_ok env user redis ntid msgId msgText t m hban hth hm hnf hc]
  refine ⟨rfl, rfl, ?_, ?_⟩
  · rw [deliveredTo_append, deliveredTo_append, suggestion_events_deliveredTo,
      confirm_events_deliveredTo]
    simp [deliveredTo]
  · exact lookupUser_updateUser redis user.id _

/-- Witness for C2 in the concrete stale-thread scenario. -/
theorem C2_witness :
    deliveredTo (runHandler staleEnv (some ("hi")) 10 aliceUser [] 7).2.events = [7]
    ∧ lookupUser (runHandler staleEnv (some ("hi")) 10 aliceUser [] 7).2.redis 1 =
        some { aliceUser with message_thread_id := some 7 } := by
  have h := C2_self_healing staleEnv aliceUser [] 7 10 (some ("hi")) 5
    ("Bad Request: message thread not found") rfl rfl rfl (by decide) rfl
  exact ⟨h.2.2.1, h.2.2.2⟩

/-- C8: when the responder raises, the failure is not propagated: the run
still returns normally, the placeholder is replaced with the error notice and
auto-retracted after the fixed delay of 5, and the confirmation reply to the
user still happens. -/
theorem C8_responder_failure (env : Env) (user : UserData)
    (redis : List (Nat × UserData)) (ntid msgId : Nat) (t : Nat)
    (text emsg : String)
    (hban : user.is_banned = false) (hth : user.message_thread_id = some t)
    (hok : env.copyFail t = none)
    (hgen : env.generateResult = Except.error emsg) :
    (runHandler env (some text) msgId user redis ntid).1 = Except.ok ()
    ∧ (runHandler env (some text) msgId user redis ntid).2.events =
        [Ev.forward t true, Ev.sendThinking t, Ev.generate text,
         Ev.editThinking generation_error_notice none, Ev.sleepDelay 5,
         Ev.deleteThinking, Ev.replyConfirm, Ev.sleepDelay 5, Ev.deleteReply] := by
  rw [run_live_ok env user redis ntid msgId (some text) t hban hth hok]
  exact ⟨rfl, by simp [suggestion_events, hgen, confirm_events]⟩

/-- Environment in which the relay succeeds and the responder raises. -/
def responderFailEnv : Env :=
  { copyFail := fun _ => none, generateResult := Except.error ("boom") }

/-- Witness for C8 at a concrete responder failure. -/
theorem C8_witness :
    (runHandler responderFailEnv (some ("hi")) 10 aliceUser [] 7).1 = Except.ok ()
    ∧ (runHandler responderFailEnv (some ("hi")) 10 aliceUser [] 7).2.events =
        [Ev.forward 5 true, Ev.sendThinking 5, Ev.generate ("hi"),
         Ev.editThinking generation_error_notice none, Ev.sleepDelay 5,
         Ev.deleteThinking, Ev.replyConfirm, Ev.sleepDelay 5, Ev.deleteReply] :=
  C8_responder_failure responderFailEnv aliceUser [] 7 10 5 ("hi") ("boom")
    rfl rfl rfl rfl

/-! ### Ordering of the responder invocation relative to the relay (C9) -/

/-- Run equation: banned users are ignored (no transport call at all). -/
lemma run_banned (env : Env) (user : UserData) (redis : List (Nat × UserData))
    (ntid msgId : Nat) (msgText : Option String)
    (hban : user.is_banned = true) :
    runHandler env msgText msgId user redis ntid =
      (Except.ok (), ⟨user, redis, ntid, []⟩) := by
  simp [runHandler, handle_incoming_message, hban]

/-- Run equation: no stored thread id — one is created, persisted, and the
copy into it succeeds. -/
lemma run_none_ok (env : Env) (user : UserData) (redis : List (Nat × UserData))
    (ntid msgId : Nat) (msgText : Option String)
    (hban : user.is_banned = false) (hth : user.message_thread_id = none)
    (hok : env.copyFail ntid = none) :
    runHandler env msgText msgId user redis ntid =
      (Except.ok (),
        ⟨{ user with message_thread_id := some ntid },
         updateUser redis user.id { user with message_thread_id := some ntid },
         ntid + 1,
         [Ev.createTopic ntid user.full_name,
          Ev.persist user.id { user with message_thread_id := some ntid },
          Ev.forward ntid true]
           ++ suggestion_events env user.id msgId ntid msgText ++ confirm_events⟩) := by
  simp [runHandler, handle_incoming_message, copy_message_to_topic,
    get_or_create_forum_topic, create_forum_topic, hban, hth, hok]

/-- Run equation: no stored thread id, and the copy into the freshly created
thread fails with an error that is not "thread not found" — it is returned. -/
lemma run_none_fail_other (env : Env) (user : UserData)
    (redis : List (Nat × UserData)) (ntid msgId : Nat) (msgText : Option String)
    (ex : TgExc)
    (hban : user.is_banned = false) (hth : user.message_thread_id = none)
    (hex : env.copyFail ntid = some ex) (hnotnf : ex.isThreadNotFound = false) :
    runHandler env msgText msgId user redis ntid =
      (Except.error ex,
        ⟨{ user with message_thread_id := some ntid },
         updateUser redis user.id { user with message_thread_id := some ntid },
         ntid + 1,
         [Ev.createTopic ntid user.full_name,
          Ev.persist user.id { user with message_thread_id := some ntid },
          Ev.forward ntid false]⟩) := by
  cases ex with
  | badRequest m =>
    rw [TgExc.isThreadNotFound] at hnotnf
    simp [runHandler, handle_incoming_message, copy_message_to_topic,
      get_or_create_forum_topic, create_forum_topic, hban, hth, hex, hnotnf]
  | apiOther m =>
    simp [runHandler, handle_incoming_message, copy_message_to_topic,
      get_or_create_forum_topic, create_forum_topic, hban, hth, hex]
  | nonTg m =>
    simp [runHandler, handle_incoming_message, copy_message_to_topic,
      get_or_create_forum_topic, create_forum_topic, hban, hth, hex]

/-- Run equation: no stored thread id, the copy into the freshly created
thread fails with "thread not found", and the retried copy into the recreated
thread succeeds. -/
lemma run_none_retry_ok (env : Env) (user : UserData)
    (redis : List (Nat × UserData)) (ntid msgId : Nat) (msgText : Option String)
    (m : String)
    (hban : user.is_banned = false) (hth : user.message_thread_id = none)
    (hm : env.copyFail ntid = some (TgExc.badRequest m))
    (hnf : strContains m thread_not_found_marker = true)
    (hc : env.copyFail (ntid + 1) = none) :
    runHandler env msgText msgId user redis ntid =
      (Except.ok (),
        ⟨{ user with message_thread_id := some (ntid + 1) },
         updateUser (updateUser redis user.id { user with message_thread_id := some ntid })
           user.id { user with message_thread_id := some (ntid + 1) },
         ntid + 2,
         [Ev.createTopic ntid user.full_name,
          Ev.persist user.id { user with message_thread_id := some ntid },
          Ev.forward ntid false,
          Ev.createTopic (ntid + 1) user.full_name,
          Ev.persist user.id { user with message_thread_id := some (ntid + 1) },
          Ev.forward (ntid + 1) true]
           ++ suggestion_events env user.id msgId (ntid + 1) msgText ++ confirm_events⟩) := by
  simp [runHandler, handle_incoming_message, copy_message_to_topic,
    get_or_create_forum_topic, create_forum_topic, hban, hth, hm, hnf, hc]

/-- Run equation: no stored thread id, "thread not found" on the first copy,
and the retried copy also fails — the second error is returned. -/
lemma run_none_retry_fail (env : Env) (user : UserData)
    (redis : List (Nat × UserData)) (ntid msgId : Nat) (msgText : Option String)
    (m : String) (ex2 : TgExc)
    (hban : user.is_banned = false) (hth : user.message_thread_id = none)
    (hm : env.copyFail ntid = some (TgExc.badRequest m))
    (hnf : strContains m thread_not_found_marker = true)
    (hc : env.copyFail (ntid + 1) = some ex2) :
    runHandler env msgText msgId user redis ntid =
      (Except.error ex2,
        ⟨{ user with message_thread_id := some (ntid + 1) },
         updateUser (updateUser redis user.id { user with message_thread_id := some ntid })
           user.id { user with message_thread_id := some (ntid + 1) },
         ntid + 2,
         [Ev.createTopic ntid user.full_name,
          Ev.persist user.id { user with message_thread_id := some ntid },
          Ev.forward ntid false,
          Ev.createTopic (ntid + 1) user.full_name,
          Ev.persist user.id { user with message_thread_id := some (ntid + 1) },
          Ev.forward (ntid + 1) false]⟩) := by
  simp [runHandler, handle_incoming_message, copy_message_to_topic,
    get_or_create_forum_topic, create_forum_topic, hban, hth, hm, hnf, hc]

/-- Every run trace either contains no responder invocation at all, or splits
as a relay prefix `A` — containing a successful forward and no responder
invocation — followed by the suggestion-workflow and confirmation phases. -/
lemma runHandler_events_shape (env : Env) (user : UserData)
    (redis : List (Nat × UserData)) (ntid msgId : Nat) (msgText : Option String) :
    (∀ s, Ev.generate s ∉ (runHandler env msgText msgId user redis ntid).2.events)
    ∨ (∃ A tid,
        (runHandler env msgText msgId user redis ntid).2.events =
          A ++ suggestion_events env user.id msgId tid msgText ++ confirm_events
        ∧ Ev.forward tid true ∈ A ∧ ∀ s, Ev.generate s ∉ A) := by
  by_cases hban : user.is_banned
  · rw [run_banned env user redis ntid msgId msgText hban]
    exact Or.inl (by simp)
  · rw [Bool.not_eq_true] at hban
    cases hth : user.message_thread_id with
    | some t =>
      cases hct : env.copyFail t with
      | none =>
        rw [run_live_ok env user redis ntid msgId msgText t hban hth hct]
        exact Or.inr ⟨[Ev.forward t true], t, rfl, by simp, by simp⟩
      | some ex =>
        by_cases hnf : ex.isThreadNotFound = true
        · cases ex with
          | badRequest m =>
            rw [TgExc.isThreadNotFound] at hnf
            cases hc2 : env.copyFail ntid with
            | none =>
              rw [run_stale_retry_ok env user redis ntid msgId msgText t m hban hth hct hnf hc2]
              exact Or.inr ⟨[Ev.forward t false, Ev.createTopic ntid user.full_name,
                Ev.persist user.id { user with message_thread_id := some ntid },
                Ev.forward ntid true], ntid, rfl, by simp, by simp⟩
            | some ex2 =>
              rw [run_stale_retry_fail env user redis ntid msgId msgText t m ex2
                hban hth hct hnf hc2]
              exact Or.inl (by simp)
          | apiOther m => simp [TgExc.isThreadNotFound] at hnf
          | nonTg m => simp [TgExc.isThreadNotFound] at hnf
        · rw [Bool.not_eq_true] at hnf
          rw [run_first_fail_other env user redis ntid msgId msgText t ex hban hth hct hnf]
          exact Or.inl (by simp)
    | none =>
      cases hct : env.copyFail ntid with
      | none =>
        rw [run_none_ok env user redis ntid msgId msgText hban hth hct]
        exact Or.inr ⟨[Ev.createTopic ntid user.full_name,
          Ev.persist user.id { user with message_thread_id := some ntid },
          Ev.forward ntid true], ntid, rfl, by simp, by simp⟩
      | some ex =>
        by_cases hnf : ex.isThreadNotFound = true
        · cases ex with
          | badRequest m =>
            rw [TgExc.isThreadNotFound] at hnf
            cases hc2 : env.copyFail (ntid + 1) with
            | none =>
              rw [run_none_retry_ok env user redis ntid msgId msgText m hban hth hct hnf hc2]
              exact Or.inr ⟨[Ev.createTopic ntid user.full_name,
                Ev.persist user.id { user with message_thread_id := some ntid },
                Ev.forward ntid false,
                Ev.createTopic (ntid + 1) user.full_name,
                Ev.persist user.id { user with message_thread_id := some (ntid + 1) },
                Ev.forward (ntid + 1) true], ntid + 1, rfl, by simp, by simp⟩
            | some ex2 =>
              rw [run_none_retry_fail env user redis ntid msgId msgText m ex2
                hban hth hct hnf hc2]
              exact Or.inl (by simp)
          | apiOther m => simp [TgExc.isThreadNotFound] at hnf
          | nonTg m => simp [TgExc.isThreadNotFound] at hnf
        · rw [Bool.not_eq_true] at hnf
          rw [run_none_fail_other env user redis ntid msgId msgText ex hban hth hct hnf]
          exact Or.inl (by simp)

/-- In a list of the form `A ++ B` where `A` contains a successful forward
and no responder invocation, any decomposition placing a responder invocation
at the seam `l1 ++ generate :: l2` has the successful forward inside `l1`. -/
lemma exists_forward_of_decomp (A B l1 l2 : List Ev) (s : String) (tid0 : Nat)
    (hA : Ev.forward tid0 true ∈ A)
    (hgen : ∀ s2, Ev.generate s2 ∉ A)
    (h : A ++ B = l1 ++ Ev.generate s :: l2) :
    ∃ tid, Ev.forward tid true ∈ l1 := by
  rcases List.append_eq_append_iff.mp h with ⟨a2, ha, _⟩ | ⟨c2, hc, hd⟩
  · exact ⟨tid0, ha ▸ List.mem_append_left a2 hA⟩
  · cases c2 with
    | nil =>
      refine ⟨tid0, ?_⟩
      have : A = l1 := by simpa using hc
      exact this ▸ hA
    | cons x xs =>
      rw [List.cons_append] at hd
      injection hd with h1 _
      refine absurd ?_ (hgen s)
      rw [hc, ← h1]
      exact List.mem_append_right l1 (List.mem_cons_self _ _)

/-- C9, counterexample to the claim as stated: the suggestion workflow does
not run in parallel with the raw relay.  In the run below the responder
invocation appears in the trace strictly after the completed relay delivery
(`Ev.forward 5 true` precedes `Ev.generate "hi"`), i.e. the responder
invocation did wait for the relay to complete. -/
theorem C9_counterexample :
    ∃ l1 l2,
      (runHandler ⟨fun _ => none, Except.ok ("NO_ANSWER")⟩ (some ("hi")) 10
          ⟨1, ("Alice"), false, some 5⟩ ([]) 7).2.events =
        l1 ++ Ev.generate ("hi") :: l2
      ∧ ∃ tid, Ev.forward tid true ∈ l1 := by
  refine ⟨[Ev.forward 5 true, Ev.sendThinking 5],
    [Ev.editThinking no_answer_notice none, Ev.sleepDelay 5, Ev.deleteThinking,
     Ev.replyConfirm, Ev.sleepDelay 5, Ev.deleteReply], ?_, ⟨5, by simp⟩⟩
  rfl

/-- C9, amended: for every run of the handler, the responder invocation is
sequential with, not parallel to, the raw relay — wherever a responder
invocation occurs in the trace, a successful copy/forward into the discussion
thread precedes it. -/
theorem C9_responder_after_relay (env : Env) (user : UserData)
    (redis : List (Nat × UserData)) (ntid msgId : Nat) (msgText : Option String)
    (l1 l2 : List Ev) (s : String)
    (h : (runHandler env msgText msgId user redis ntid).2.events =
      l1 ++ Ev.generate s :: l2) :
    ∃ tid, Ev.forward tid true ∈ l1 := by
  rcases runHandler_events_shape env user redis ntid msgId msgText with
    hnone | ⟨A, tid0, hev, hfw, hgen⟩
  · exact absurd (h ▸ List.mem_append_right l1 (List.mem_cons_self _ _)) (hnone s)
  · refine exists_forward_of_decomp A
      (suggestion_events env user.id msgId tid0 msgText ++ confirm_events)
      l1 l2 s tid0 hfw hgen ?_
    rw [← List.append_assoc, ← hev, h]

/-- Witness for the amended C9 at a concrete run. -/
theorem C9_witness :
    ∃ tid, Ev.forward tid true ∈ [Ev.forward 5 true, Ev.sendThinking 5] :=
  C9_responder_after_relay ⟨fun _ => none, Except.ok ("NO_ANSWER")⟩
    ⟨1, ("Alice"), false, some 5⟩ ([]) 7 10 (some ("hi"))
    [Ev.forward 5 true, Ev.sendThinking 5]
    [Ev.editThinking no_answer_notice none, Ev.sleepDelay 5, Ev.deleteThinking,
     Ev.replyConfirm, Ev.sleepDelay 5, Ev.deleteReply] ("hi") rfl

end QamusBot
